import Mathlib

/-!
Verification development for the fraud-detection observability repository.

The embedding below translates the deterministic parts of the Python sources
into Lean: the tool functions of `agents/risk_analyser_agent.py` and
`agents/fraud_alert_agent.py`, the three workflow stage handlers and the
workflow wiring of `workflows/workflow.py`, and the batch preparation and
summary accounting of `batch_run/multi_transaction_simulator.py`.

Conventions of the embedding:
* Python `float` amounts are modelled as `Rat`; every use in the sources is a
  comparison, a sum or a division, none of which depends on binary rounding.
* The hosted LLM agents are external services; each stage handler takes the
  agent outcome as an explicit argument (`Except` error message / list of
  reply message texts), mirroring the single `await self.agent.run(...)` call.
* Telemetry recordings are modelled as values of an inductive event type
  collected in a list; wall-clock timestamps, span objects, UUID-based SAR
  ids and filing deadlines are environment-dependent and omitted from events.
* Python `str.lower` and the regular expressions are modelled over ASCII,
  character by character, following the exact pattern strings in the source.
-/

/-! ## Basic string helpers -/

/-- Lowercase a string character by character (Python `str.lower`, ASCII part). -/
def lowerStr (s : String) : String := String.mk (s.data.map Char.toLower)

/-- Whitespace class of Python regular expressions (`\s`). -/
def isPySpace (c : Char) : Bool :=
  c = ' ' || c = '\t' || c = '\n' || c = '\r' || c = '\x0b' || c = '\x0c'

/-- Character class `[:\s]` used between a label and a number in the patterns. -/
def isColonOrSpace (c : Char) : Bool := c = ':' || isPySpace c

/-- ASCII decimal digit test (Python regex `\d`, ASCII part). -/
def isDigitChar (c : Char) : Bool := '0' ≤ c && c ≤ '9'

/-- Numeric value of an ASCII digit character. -/
def digitVal (c : Char) : Nat := c.toNat - 48

/-- Word character class of Python regular expressions (`\w`), ASCII part. -/
def isWordChar (c : Char) : Bool :=
  ('a' ≤ c && c ≤ 'z') || ('A' ≤ c && c ≤ 'Z') || ('0' ≤ c && c ≤ '9') || c = '_'

/-- Match a literal character list at the head of the input and return the rest. -/
def stripLit : List Char → List Char → Option (List Char)
  | [], s => some s
  | _, [] => none
  | p :: ps, c :: cs => if p = c then stripLit ps cs else none

/-- Substring test on character lists (Python `in` on strings). -/
def containsSub (pat : List Char) : List Char → Bool
  | [] => pat.isEmpty
  | c :: t => pat.isPrefixOf (c :: t) || containsSub pat t

/-- Join a list of strings with a separator (Python `sep.join`). -/
def joinSep (sep : String) : List String → String
  | [] => ""
  | [x] => x
  | x :: y :: xs => x ++ sep ++ joinSep sep (y :: xs)

/-- Python `repr` of a string restricted to the plain identifiers used here. -/
def pyStrRepr (s : String) : String := "\x27" ++ s ++ "\x27"

/-- Python `repr` of a list of strings, as interpolated into error messages. -/
def pyListRepr (xs : List String) : String :=
  "[" ++ joinSep ", " (xs.map pyStrRepr) ++ "]"

/-! ## agents/risk_analyser_agent.py : the analyze_transaction_risk tool

The Cosmos DB transaction-pattern check is guarded by `if transactions_container`;
the embedding models the configuration in which no transactions database is
configured (`transactions_container is None`), as the claims require.
Python renders `f"High amount: ${amount_usd}"` with the float `repr`; that
rendering is abstracted as the `showFloat` argument, which only affects the
tail of the result text. -/

/-- Risk factor configuration `RISK_FACTORS["high_risk_countries"]`. -/
def high_risk_countries : List String := ["NG", "IR", "RU", "KP"]

/-- Risk factor configuration `RISK_FACTORS["high_amount_threshold_usd"]`. -/
def high_amount_threshold_usd : Rat := 10000

/-- Risk factor configuration `RISK_FACTORS["suspicious_account_age_days"]`. -/
def suspicious_account_age_days : Int := 30

/-- Result of the `analyze_transaction_risk` tool: the computed score and level
together with the returned text. -/
structure RiskToolOutput where
  risk_score : Nat
  risk_level : String
  result : String
deriving Repr, DecidableEq

/-- Embedding of `analyze_transaction_risk` with no transactions database
configured. -/
def analyze_transaction_risk (showFloat : Rat → String)
    (customer_country : String) (amount_usd : Rat) (account_age_days : Int) :
    RiskToolOutput :=
  let s0 : Nat := 0
  let f0 : List String := []
  let s1 := if customer_country ∈ high_risk_countries then s0 + 30 else s0
  let f1 := if customer_country ∈ high_risk_countries then
      f0 ++ ["High-risk country: " ++ customer_country] else f0
  let s2 := if amount_usd ≥ high_amount_threshold_usd then s1 + 25 else s1
  let f2 := if amount_usd ≥ high_amount_threshold_usd then
      f1 ++ ["High amount: $" ++ showFloat amount_usd] else f1
  let s3 := if account_age_days ≤ suspicious_account_age_days then s2 + 20 else s2
  let f3 := if account_age_days ≤ suspicious_account_age_days then
      f2 ++ ["New account: " ++ toString account_age_days ++ " days old"] else f2
  let risk_level :=
    if s3 ≥ 75 then "High" else if s3 ≥ 40 then "Medium" else "Low"
  let text0 := "Risk Score: " ++ toString s3 ++ "/100" ++ "\n"
  let text1 := text0 ++ "Risk Level: " ++ risk_level ++ "\n"
  let text2 :=
    if f3.isEmpty then text1 ++ "  - None identified"
    else text1 ++ "Risk Factors:\n" ++ joinSep "\n" (f3.map (fun f => "  - " ++ f))
  { risk_score := s3, risk_level := risk_level, result := text2 }

/-! ## agents/fraud_alert_agent.py : the create_fraud_alert tool

The embedding models the configuration in which no alerts container is
configured (`alerts_container is None`), so no storage call occurs; the
constructed alert document is returned alongside the reply text so that the
claims about document construction can be stated.  The source computes
`created_at` via `hasattr(dotenv, 'datetime')`, which is false for the
python-dotenv module, so the constant fallback string is always used. -/

/-- Enumeration `SEVERITY_LEVELS`. -/
def SEVERITY_LEVELS : List String := ["LOW", "MEDIUM", "HIGH", "CRITICAL"]

/-- Enumeration `STATUS_VALUES`. -/
def STATUS_VALUES : List String := ["OPEN", "INVESTIGATING", "RESOLVED", "FALSE_POSITIVE"]

/-- Enumeration `DECISION_ACTIONS`. -/
def DECISION_ACTIONS : List String := ["ALLOW", "BLOCK", "MONITOR", "INVESTIGATE"]

/-- Alert document dictionary built by `create_fraud_alert`. -/
structure FraudAlertDoc where
  id : String
  transaction_id : String
  customer_id : String
  risk_score : Int
  severity : String
  status : String
  decision_action : String
  reason : String
  created_at : String
deriving Repr, DecidableEq

/-- Embedding of `create_fraud_alert`: returns the reply text together with the
alert document it constructed, if any. -/
def create_fraud_alert (transaction_id customer_id : String) (risk_score : Int)
    (severity status decision_action reason : String) :
    String × Option FraudAlertDoc :=
  if severity ∉ SEVERITY_LEVELS then
    ("Invalid severity: " ++ severity ++ ". Must be one of " ++
      pyListRepr SEVERITY_LEVELS, none)
  else if status ∉ STATUS_VALUES then
    ("Invalid status: " ++ status ++ ". Must be one of " ++
      pyListRepr STATUS_VALUES, none)
  else if decision_action ∉ DECISION_ACTIONS then
    ("Invalid decision_action: " ++ decision_action ++ ". Must be one of " ++
      pyListRepr DECISION_ACTIONS, none)
  else
    let alert : FraudAlertDoc :=
      { id := "ALERT-" ++ transaction_id
        transaction_id := transaction_id
        customer_id := customer_id
        risk_score := risk_score
        severity := severity
        status := status
        decision_action := decision_action
        reason := reason
        created_at := "2024-01-01T00:00:00" }
    ("✅ Fraud Alert Created:\n" ++
      "Alert ID: " ++ alert.id ++ "\n" ++
      "Transaction: " ++ transaction_id ++ "\n" ++
      "Customer: " ++ customer_id ++ "\n" ++
      "Risk Score: " ++ toString risk_score ++ "/100\n" ++
      "Severity: " ++ severity ++ "\n" ++
      "Status: " ++ status ++ "\n" ++
      "Decision: " ++ decision_action ++ "\n" ++
      "Reason: " ++ reason ++ "\n", some alert)

/-! ## workflows/workflow.py : risk-score extraction (RiskAnalyserAgentExecutor.handle)

Each regex of the `patterns` list is embedded as a bespoke matcher over
character lists.  A matcher tries to match at the head of its input and
returns the value of the capture group; `searchCapture` then scans start
positions left to right, which is `re.search` for these patterns.  Greedy
`\s*` and `[:\s]*` are safe to take as maximal munch because the character
that follows them in every pattern is never in the repeated class; the
greedy `\d{1,3}` capture is enumerated longest first (`digitsChoices`), and
matchers with a mandatory suffix try the choices in that order, which is the
backtracking order of the Python engine. -/

/-- Possible greedy captures of `(\d{1,3})` at the head of the input, longest
first, each with the remaining input. -/
def digitsChoices (s : List Char) : List (Nat × List Char) :=
  match s with
  | c1 :: t1 =>
    if isDigitChar c1 then
      match t1 with
      | c2 :: t2 =>
        if isDigitChar c2 then
          match t2 with
          | c3 :: t3 =>
            if isDigitChar c3 then
              [(digitVal c1 * 100 + digitVal c2 * 10 + digitVal c3, t3),
               (digitVal c1 * 10 + digitVal c2, t2),
               (digitVal c1, t1)]
            else
              [(digitVal c1 * 10 + digitVal c2, t2), (digitVal c1, t1)]
          | [] => [(digitVal c1 * 10 + digitVal c2, t2), (digitVal c1, t1)]
        else [(digitVal c1, t1)]
      | [] => [(digitVal c1, t1)]
    else []
  | [] => []

/-- First digit choice whose remaining input satisfies the suffix check. -/
def firstChoice (ck : List Char → Bool) : List (Nat × List Char) → Option Nat
  | [] => none
  | (v, rest) :: more => if ck rest then some v else firstChoice ck more

/-- Pattern 1, `risk\s*score[:\s]*(\d{1,3})(?:\s*/\s*100)?`: the optional
suffix cannot reject a match, so the capture is the greedy digit run. -/
def matchPat1At (s : List Char) : Option Nat :=
  match stripLit "risk".data s with
  | none => none
  | some s1 =>
    match stripLit "score".data (s1.dropWhile isPySpace) with
    | none => none
    | some s2 =>
      match digitsChoices (s2.dropWhile isColonOrSpace) with
      | (v, _) :: _ => some v
      | [] => none

/-- Mandatory suffix `\s*/\s*100` of pattern 2. -/
def tailSlash100 (rest : List Char) : Bool :=
  match stripLit "/".data (rest.dropWhile isPySpace) with
  | none => false
  | some r2 => (stripLit "100".data (r2.dropWhile isPySpace)).isSome

/-- Pattern 2, `score[:\s]*(\d{1,3})\s*/\s*100`. -/
def matchPat2At (s : List Char) : Option Nat :=
  match stripLit "score".data s with
  | none => none
  | some s1 => firstChoice tailSlash100 (digitsChoices (s1.dropWhile isColonOrSpace))

/-- Mandatory suffix `\s*(?:out of|/)\s*100` of pattern 3. -/
def tailOutOf100 (rest : List Char) : Bool :=
  let r1 := rest.dropWhile isPySpace
  let afterAlt : Option (List Char) :=
    match stripLit "out of".data r1 with
    | some r2 => some r2
    | none => stripLit "/".data r1
  match afterAlt with
  | none => false
  | some r2 => (stripLit "100".data (r2.dropWhile isPySpace)).isSome

/-- Pattern 3, `(\d{1,3})\s*(?:out of|/)\s*100`. -/
def matchPat3At (s : List Char) : Option Nat :=
  firstChoice tailOutOf100 (digitsChoices s)

/-- Mandatory suffix `\*\*` of pattern 4. -/
def tailStars (rest : List Char) : Bool := (stripLit "**".data rest).isSome

/-- Pattern 4, `\*\*risk[:\s]*(\d{1,3})\*\*`. -/
def matchPat4At (s : List Char) : Option Nat :=
  match stripLit "**risk".data s with
  | none => none
  | some s1 => firstChoice tailStars (digitsChoices (s1.dropWhile isColonOrSpace))

/-- Pattern 5, `overall\s*risk[:\s]*(\d{1,3})`. -/
def matchPat5At (s : List Char) : Option Nat :=
  match stripLit "overall".data s with
  | none => none
  | some s1 =>
    match stripLit "risk".data (s1.dropWhile isPySpace) with
    | none => none
    | some s2 =>
      match digitsChoices (s2.dropWhile isColonOrSpace) with
      | (v, _) :: _ => some v
      | [] => none

/-- Pattern 6, `assessment[:\s]*(\d{1,3})`. -/
def matchPat6At (s : List Char) : Option Nat :=
  match stripLit "assessment".data s with
  | none => none
  | some s1 =>
    match digitsChoices (s1.dropWhile isColonOrSpace) with
    | (v, _) :: _ => some v
    | [] => none

/-- Scan start positions left to right (`re.search`), returning the capture of
the leftmost match. -/
def searchCapture (m : List Char → Option Nat) : List Char → Option Nat
  | [] => m []
  | c :: t =>
    match m (c :: t) with
    | some v => some v
    | none => searchCapture m t

/-- The `patterns` list, in source order (most specific first). -/
def riskPatterns : List (List Char → Option Nat) :=
  [matchPat1At, matchPat2At, matchPat3At, matchPat4At, matchPat5At, matchPat6At]

/-- The `for pattern in patterns` loop: first pattern whose leftmost capture
lies in `[0,100]` wins; an out-of-range capture falls through to the next
pattern. -/
def tryPatterns : List (List Char → Option Nat) → List Char → Option Nat
  | [], _ => none
  | p :: ps, s =>
    match searchCapture p s with
    | some v => if v ≤ 100 then some v else tryPatterns ps s
    | none => tryPatterns ps s

/-- Word-boundary keyword search: true when some keyword of `ws` occurs at a
position preceded by start-of-string or a non-word character, which is
`re.search(r"\b(kw1|kw2|...)\s*(risk)?", s)` since the tail groups accept the
empty string. -/
def hasKeywordFrom (ws : List (List Char)) : Bool → List Char → Bool
  | _, [] => false
  | prevWord, c :: t =>
    (!prevWord && ws.any (fun w => w.isPrefixOf (c :: t))) ||
      hasKeywordFrom ws (isWordChar c) t

/-- Keyword search starting at the beginning of the text. -/
def hasKeyword (ws : List (List Char)) (s : List Char) : Bool :=
  hasKeywordFrom ws false s

/-- Fallback keyword heuristics of the risk-score parse. -/
def fallbackScore (s : List Char) : Nat :=
  if hasKeyword ["high".data, "critical".data, "severe".data] s then 85
  else if hasKeyword ["medium".data, "moderate".data] s then 55
  else if hasKeyword ["low".data, "minimal".data] s then 25
  else 50

/-- Risk-score extraction of `RiskAnalyserAgentExecutor.handle`: regex chain on
the lowercased reply, then keyword fallbacks, then the default 50. -/
def parse_risk_score (risk_analysis : String) : Nat :=
  let low := (lowerStr risk_analysis).data
  match tryPatterns riskPatterns low with
  | some v => v
  | none => fallbackScore low

example : parse_risk_score "Risk Score: 75/100" = 75 := by decide
example : parse_risk_score "The Overall Risk: 83 for this" = 83 := by decide
example : parse_risk_score "score 888/100, assessment: 61" = 61 := by decide
example : parse_risk_score "a HIGH risk transaction" = 85 := by decide
example : parse_risk_score "nothing to see" = 50 := by decide
example : parse_risk_score "highway to low" = 85 := by decide
example : parse_risk_score "**Risk: 12** and 44 out of 100" = 44 := by decide
example : parse_risk_score "**risk:120** ok" = 50 := by decide

/-! ## workflows/workflow.py : request/response models and telemetry events -/

/-- Initial request to start the fraud detection workflow (`AnalysisRequest`). -/
structure AnalysisRequest where
  transaction_id : String
  customer_id : String
  amount : Option Rat := none
  currency : Option String := some "USD"
deriving Repr, DecidableEq

/-- Response from the CustomerDataAgent stage (`CustomerDataResponse`). -/
structure CustomerDataResponse where
  customer_id : String
  transaction_id : String
  analysis : String
  status : String
  amount : Option Rat := none
  currency : Option String := some "USD"
deriving Repr, DecidableEq

/-- Response from the RiskAnalyserAgent stage (`RiskAnalysisResponse`). -/
structure RiskAnalysisResponse where
  transaction_id : String
  customer_id : String
  risk_analysis : String
  risk_score : Int
  risk_level : String
  recommendation : String
  status : String
  amount : Option Rat := none
  currency : Option String := some "USD"
  model_confidence : Option Rat := none
deriving Repr, DecidableEq

/-- Response from the FraudAlertAgent stage (`FraudAlertResponse`). -/
structure FraudAlertResponse where
  transaction_id : String
  customer_id : String
  alert_response : String
  alert_created : Bool
  workflow_status : String
  risk_score : Int := 0
  risk_level : String := "UNKNOWN"
deriving Repr, DecidableEq

/-- Telemetry recordings made by the stage handlers.  Timestamps, span
attributes, UUID-based SAR ids and filing deadlines are environment-dependent
and not part of the events. -/
inductive TelemetryEvent where
  | businessEvent (name : String)
  | transactionProcessed (stage transaction_id : String)
  | riskScoreRecorded (score : Int) (transaction_id recommendation : String)
  | modelPrediction (transaction_id model_version : String) (confidence : Rat)
      (prediction : String)
  | customerFriction (customer_id transaction_id friction_type : String)
      (transaction_declined : Bool)
  | fraudAlertCreated (alert_id severity recommendation transaction_id : String)
  | fraudPrevented (transaction_id : String) (blocked_amount : Rat)
      (currency fraud_type : String) (risk_score : Int)
  | sarFiled (transaction_id : String) (amount_threshold_exceeded : Bool)
      (customer_id : String)
deriving Repr, DecidableEq

/-- Outcome of the single `await self.agent.run(...)` call of a stage: either
the raised exception message or the list of reply message texts. -/
abbrev AgentReply := Except String (List String)

/-- Reply text selection `response.messages[-1].text if response.messages else
"No response"`. -/
def lastText (msgs : List String) : String := (msgs.getLast?).getD "No response"

/-- Response of a stage handler together with the telemetry it recorded. -/
structure StageOutput (α : Type) where
  resp : α
  events : List TelemetryEvent
deriving Repr

/-! ## workflows/workflow.py : the three stage handlers -/

/-- Embedding of `CustomerDataAgentExecutor.handle`.  The error branch builds
its `CustomerDataResponse` without amount or currency, so the pydantic
defaults (`None`, `"USD"`) apply there. -/
def customerDataHandle (request : AnalysisRequest) (agent : AgentReply) :
    StageOutput CustomerDataResponse :=
  let started := TelemetryEvent.businessEvent "fraud_detection.customer_data.started"
  match agent with
  | Except.ok msgs =>
    let analysis := lastText msgs
    { resp :=
        { customer_id := request.customer_id
          transaction_id := request.transaction_id
          analysis := analysis
          status := "SUCCESS"
          amount := request.amount
          currency := request.currency }
      events :=
        [started,
         TelemetryEvent.transactionProcessed "customer_data" request.transaction_id,
         TelemetryEvent.businessEvent "fraud_detection.customer_data.completed"] }
  | Except.error e =>
    { resp :=
        { customer_id := request.customer_id
          transaction_id := request.transaction_id
          analysis := "Error: " ++ e
          status := "ERROR"
          amount := none
          currency := some "USD" }
      events := [started] }

/-- Embedding of `RiskAnalyserAgentExecutor.handle`. -/
def riskHandle (customer_response : CustomerDataResponse) (agent : AgentReply) :
    StageOutput RiskAnalysisResponse :=
  let started := TelemetryEvent.businessEvent "fraud_detection.risk_analysis.started"
  match agent with
  | Except.ok msgs =>
    let risk_analysis := lastText msgs
    let risk_score : Int := (parse_risk_score risk_analysis : Nat)
    let risk_level :=
      if risk_score ≥ 75 then "HIGH" else if risk_score ≥ 40 then "MEDIUM" else "LOW"
    let recommendation :=
      if risk_level = "HIGH" then "BLOCK"
      else if risk_level = "MEDIUM" then "INVESTIGATE" else "ALLOW"
    let confidence_score : Rat := |(risk_score : Rat) - 50| / 50
    let frictionEvents :=
      if recommendation ∈ ["BLOCK", "INVESTIGATE"] then
        [TelemetryEvent.customerFriction customer_response.customer_id
          customer_response.transaction_id
          (if recommendation = "BLOCK" then "transaction_blocked" else "step_up_auth")
          (decide (recommendation = "BLOCK"))]
      else []
    { resp :=
        { transaction_id := customer_response.transaction_id
          customer_id := customer_response.customer_id
          risk_analysis := risk_analysis
          risk_score := risk_score
          risk_level := risk_level
          recommendation := recommendation
          status := "SUCCESS"
          amount := customer_response.amount
          currency := customer_response.currency
          model_confidence := some confidence_score }
      events :=
        [started,
         TelemetryEvent.riskScoreRecorded risk_score customer_response.transaction_id
           recommendation,
         TelemetryEvent.modelPrediction customer_response.transaction_id "v2.3.1"
           confidence_score risk_level] ++
        frictionEvents ++
        [TelemetryEvent.businessEvent "fraud_detection.risk_analysis.completed"] }
  | Except.error e =>
    { resp :=
        { transaction_id := customer_response.transaction_id
          customer_id := customer_response.customer_id
          risk_analysis := "Error: " ++ e
          risk_score := 0
          risk_level := "UNKNOWN"
          recommendation := "INVESTIGATE"
          status := "ERROR"
          amount := none
          currency := some "USD"
          model_confidence := none }
      events := [started] }

/-- Severity ladder computed at the top of `FraudAlertAgentExecutor.handle`. -/
def alertSeverity (risk_score : Int) : String :=
  if risk_score ≥ 90 then "CRITICAL"
  else if risk_score ≥ 75 then "HIGH"
  else if risk_score ≥ 50 then "MEDIUM"
  else "LOW"

/-- Python truthiness of the optional float `risk_response.amount`. -/
def truthyAmount : Option Rat → Bool
  | none => false
  | some q => decide (q ≠ 0)

/-- Python `risk_response.amount or 0`. -/
def amountOrZero : Option Rat → Rat
  | none => 0
  | some q => q

/-- Python `risk_response.currency or "USD"` (the empty string is falsy). -/
def currencyOrUSD : Option String → String
  | none => "USD"
  | some c => if c = "" then "USD" else c

/-- Embedding of `FraudAlertAgentExecutor.handle`. -/
def fraudAlertHandle (risk_response : RiskAnalysisResponse) (agent : AgentReply) :
    StageOutput FraudAlertResponse :=
  let started := TelemetryEvent.businessEvent "fraud_detection.fraud_alert.started"
  match agent with
  | Except.ok msgs =>
    let alert_response := lastText msgs
    let severity := alertSeverity risk_response.risk_score
    let alert_created : Bool :=
      containsSub "alert created".data (lowerStr alert_response).data ||
        decide (risk_response.risk_score ≥ 40)
    let amount_threshold : Bool := decide (amountOrZero risk_response.amount ≥ 10000)
    let alertEvents :=
      if alert_created then
        [TelemetryEvent.fraudAlertCreated ("ALERT-" ++ risk_response.transaction_id)
           severity risk_response.recommendation risk_response.transaction_id] ++
        (if risk_response.recommendation = "BLOCK" ∧ truthyAmount risk_response.amount then
           [TelemetryEvent.fraudPrevented risk_response.transaction_id
              (amountOrZero risk_response.amount) (currencyOrUSD risk_response.currency)
              "general_fraud" risk_response.risk_score]
         else []) ++
        (if severity = "CRITICAL" ∨ severity = "HIGH" ∨ amount_threshold then
           [TelemetryEvent.sarFiled risk_response.transaction_id amount_threshold
              risk_response.customer_id]
         else [])
      else []
    { resp :=
        { transaction_id := risk_response.transaction_id
          customer_id := risk_response.customer_id
          alert_response := alert_response
          alert_created := alert_created
          workflow_status := "SUCCESS"
          risk_score := risk_response.risk_score
          risk_level := risk_response.risk_level }
      events :=
        [started] ++ alertEvents ++
        [TelemetryEvent.businessEvent "fraud_detection.fraud_alert.completed"] }
  | Except.error e =>
    { resp :=
        { transaction_id := risk_response.transaction_id
          customer_id := risk_response.customer_id
          alert_response := "Error: " ++ e
          alert_created := false
          workflow_status := "ERROR"
          risk_score := risk_response.risk_score
          risk_level := risk_response.risk_level }
      events := [started] }

/-! ## workflows/workflow.py : workflow wiring and execution

The executor registrations, edges and start executor below are the builder
calls of `run_fraud_detection_workflow` (and, identically, of `main`). -/

/-- Messages exchanged between executors: each handler is typed on exactly one
of the three request/response models. -/
inductive WMsg where
  | mreq (r : AnalysisRequest)
  | mcdr (r : CustomerDataResponse)
  | mrar (r : RiskAnalysisResponse)
deriving Repr, DecidableEq

/-- Agent outcomes for one workflow run, one per stage. -/
structure FraudOracles where
  customerAgent : AgentReply
  riskAgent : AgentReply
  alertAgent : AgentReply

/-- Executor names registered with the builder. -/
def fraudExecutors : List String :=
  ["CustomerDataAgent", "RiskAnalyserAgent", "FraudAlertAgent"]

/-- Edges added with `add_edge`. -/
def fraudEdges : List (String × String) :=
  [("CustomerDataAgent", "RiskAnalyserAgent"),
   ("RiskAnalyserAgent", "FraudAlertAgent")]

/-- Start executor set with `set_start_executor`. -/
def fraudStart : String := "CustomerDataAgent"

/-- Dispatch of a message to a named executor: the executor whose typed handler
accepts the message runs it; other messages are not handled.  Returns the
messages it sent and the outputs it yielded. -/
def execNode (o : FraudOracles) (name : String) (msg : WMsg) :
    List WMsg × List FraudAlertResponse :=
  if name = "CustomerDataAgent" then
    match msg with
    | WMsg.mreq r => ([WMsg.mcdr (customerDataHandle r o.customerAgent).resp], [])
    | _ => ([], [])
  else if name = "RiskAnalyserAgent" then
    match msg with
    | WMsg.mcdr r => ([WMsg.mrar (riskHandle r o.riskAgent).resp], [])
    | _ => ([], [])
  else if name = "FraudAlertAgent" then
    match msg with
    | WMsg.mrar r => ([], [(fraudAlertHandle r o.alertAgent).resp])
    | _ => ([], [])
  else ([], [])

/-- Targets of the edges leaving a node. -/
def targetsOf (edges : List (String × String)) (src : String) : List String :=
  (edges.filter (fun e => e.1 = src)).map Prod.snd

/-- Modelled from the spec: the agent-framework `WorkflowBuilder`/`run_stream`
engine is vendor SDK code outside this repository.  It is modelled as
synchronous message passing: every message of the current inbox is handled by
its addressee, sent messages travel along the registered edges to the next
inbox, and yielded outputs are collected in order, for the given number of
supersteps. -/
def runInbox (o : FraudOracles) (edges : List (String × String)) :
    Nat → List (String × WMsg) → List FraudAlertResponse
  | 0, _ => []
  | Nat.succ fuel, inbox =>
    let processed := inbox.map (fun nm => (nm.1, execNode o nm.1 nm.2))
    let outs := processed.flatMap (fun p => p.2.2)
    let next := processed.flatMap
      (fun p => p.2.1.flatMap (fun m => (targetsOf edges p.1).map (fun t => (t, m))))
    outs ++ runInbox o edges fuel next

/-- Embedding of `run_fraud_detection_workflow`: build the request, run the
workflow, and return the data of the last `WorkflowOutputEvent`, if any. -/
def run_fraud_detection_workflow (o : FraudOracles)
    (transaction_id customer_id : String)
    (amount : Option Rat := none) (currency : Option String := some "USD") :
    Option FraudAlertResponse :=
  (runInbox o fraudEdges 4
    [(fraudStart,
      WMsg.mreq
        { transaction_id := transaction_id
          customer_id := customer_id
          amount := amount
          currency := currency })]).getLast?

/-! ## batch_run/multi_transaction_simulator.py : batch preparation -/

/-- Transaction dictionary of the seed data. -/
structure SimTransaction where
  transaction_id : String
  customer_id : String
  amount : Rat
  currency : String
deriving Repr, DecidableEq

/-- Seed data `AVAILABLE_TRANSACTIONS` (17 entries). -/
def AVAILABLE_TRANSACTIONS : List SimTransaction :=
  [{ transaction_id := "TX1001", customer_id := "CUST1001", amount := 5200, currency := "USD" },
   { transaction_id := "TX1002", customer_id := "CUST1002", amount := 15000, currency := "INR" },
   { transaction_id := "TX1003", customer_id := "CUST1003", amount := 300, currency := "CNY" },
   { transaction_id := "TX1004", customer_id := "CUST1004", amount := 9900, currency := "AED" },
   { transaction_id := "TX1005", customer_id := "CUST1005", amount := 200, currency := "EUR" },
   { transaction_id := "TX1006", customer_id := "CUST1006", amount := 70, currency := "GBP" },
   { transaction_id := "TX1007", customer_id := "CUST1007", amount := 1800, currency := "RUB" },
   { transaction_id := "TX1008", customer_id := "CUST1008", amount := 40, currency := "SOS" },
   { transaction_id := "TX1009", customer_id := "CUST1009", amount := 90, currency := "ILS" },
   { transaction_id := "TX1010", customer_id := "CUST1010", amount := 600, currency := "IRR" },
   { transaction_id := "TX1011", customer_id := "CUST1011", amount := 220, currency := "KRW" },
   { transaction_id := "TX1012", customer_id := "CUST1012", amount := 1100, currency := "SYP" },
   { transaction_id := "TX1013", customer_id := "CUST1013", amount := 60, currency := "EUR" },
   { transaction_id := "TX1014", customer_id := "CUST1014", amount := 25, currency := "YER" },
   { transaction_id := "TX2001", customer_id := "CUST1005", amount := 9999, currency := "EUR" },
   { transaction_id := "TX2002", customer_id := "CUST1005", amount := 9998, currency := "EUR" },
   { transaction_id := "TX2003", customer_id := "CUST1005", amount := 9997, currency := "EUR" }]

/-- Placeholder transaction for total list indexing; never selected because the
index is always reduced modulo the list length. -/
def dummyTransaction : SimTransaction :=
  { transaction_id := "", customer_id := "", amount := 0, currency := "" }

/-- Decimal rendering of a natural number (Python `str` of the nonnegative
`int` `i // len(...)`, as interpolated by the f-string). -/
def natDec (k : Nat) : String :=
  if k = 0 then "0" else String.mk (((Nat.digits 10 k).map Nat.digitChar).reverse)

/-- Preparation of the i-th batch transaction (0-based): a copy of the seed
entry at `i mod 17`, with the transaction id suffixed when `i` wraps past the
seed list. -/
def prepTransaction (i : Nat) : SimTransaction :=
  let tx := AVAILABLE_TRANSACTIONS.getD (i % AVAILABLE_TRANSACTIONS.length)
    dummyTransaction
  if i ≥ AVAILABLE_TRANSACTIONS.length then
    { tx with transaction_id :=
        tx.transaction_id ++ "-" ++ natDec (i / AVAILABLE_TRANSACTIONS.length) }
  else tx

/-- Transaction list prepared by `run_batch_simulation` before any shuffle. -/
def prepTransactions (n : Nat) : List SimTransaction :=
  (List.range n).map prepTransaction

/-! ## batch_run/multi_transaction_simulator.py : summary accounting

Each transaction is processed by the (network-bound) workflow; the result of
processing is abstracted as a given `TransactionResult`, and the summary is
the fold of the per-iteration counter updates of `run_batch_simulation`,
followed by the average computations performed after the loop. -/

/-- Result of a single transaction processing (`TransactionResult`). -/
structure TransactionResult where
  transaction_id : String
  customer_id : String
  amount : Rat
  currency : String
  risk_score : Int := 0
  risk_level : String := "UNKNOWN"
  alert_created : Bool := false
  alert_severity : String := "NONE"
  processing_time : Rat := 0
  status : String := "PENDING"
  error_message : Option String := none
deriving Repr, DecidableEq

/-- Summary statistics for a batch run (`BatchRunSummary`); the distribution
dictionaries are modelled as count functions. -/
structure BatchRunSummary where
  total_transactions : Nat := 0
  successful : Nat := 0
  failed : Nat := 0
  alerts_created : Nat := 0
  total_amount_processed : Rat := 0
  total_amount_blocked : Rat := 0
  avg_processing_time : Rat := 0
  avg_risk_score : Rat := 0
  risk_distribution : String → Nat := fun _ => 0
  alert_severity_distribution : String → Nat := fun _ => 0
  results : List TransactionResult := []

/-- Dictionary update `d[key] = d.get(key, 0) + 1`. -/
def bumpCount (f : String → Nat) (key : String) : String → Nat :=
  fun s => if s = key then f s + 1 else f s

/-- Counter updates performed by one iteration of the processing loop. -/
def recordResult (summary : BatchRunSummary) (r : TransactionResult) :
    BatchRunSummary :=
  let s1 := { summary with results := summary.results ++ [r] }
  let s2 :=
    if r.status = "SUCCESS" then { s1 with successful := s1.successful + 1 }
    else { s1 with failed := s1.failed + 1 }
  let s3 :=
    if r.alert_created then
      { s2 with
          alerts_created := s2.alerts_created + 1
          total_amount_blocked := s2.total_amount_blocked + r.amount
          alert_severity_distribution :=
            bumpCount s2.alert_severity_distribution r.alert_severity }
    else s2
  let s4 := { s3 with risk_distribution := bumpCount s3.risk_distribution r.risk_level }
  { s4 with total_amount_processed := s4.total_amount_processed + r.amount }

/-- Average computations performed after the loop, over the successful results
only. -/
def finalizeAverages (s : BatchRunSummary) : BatchRunSummary :=
  if 0 < s.successful then
    let succ := s.results.filter (fun r => r.status = "SUCCESS")
    { s with
        avg_processing_time := (succ.map (fun r => r.processing_time)).sum / (succ.length : Rat)
        avg_risk_score := (succ.map (fun r => (r.risk_score : Rat))).sum / (succ.length : Rat) }
  else s

/-- Summary produced by `run_batch_simulation` for `n` transactions whose
processing produced the results `rs`, in order. -/
def run_batch_summary (n : Nat) (rs : List TransactionResult) : BatchRunSummary :=
  finalizeAverages (rs.foldl recordResult { total_transactions := n })




/-! ## Helper lemmas -/

/-- Extending the right end of a string keeps any given left part as a left
factor. -/
theorem exists_append_extend {P Q : String} (h : ∃ r, Q = P ++ r) (x : String) :
    ∃ r, Q ++ x = P ++ r := by
  obtain ⟨r, hr⟩ := h
  exact ⟨r ++ x, by rw [hr, String.append_assoc]⟩

/-! ## Claim C5 -/

/-- C5: with no transactions database configured, `analyze_transaction_risk`
never raises (it is a total function here) and computes the risk score as the
sum of 30 for a high-risk country, 25 for an amount of at least 10000 and 20
for an account at most 30 days old; the level is "High" exactly for scores of
at least 75, which happens exactly when all three factors fire, "Medium" for
scores in [40, 75), "Low" below 40; and the returned text begins with
"Risk Score: {score}/100". -/
theorem c5_analyze_transaction_risk_no_db (showFloat : Rat → String)
    (customer_country : String) (amount_usd : Rat) (account_age_days : Int) :
    (analyze_transaction_risk showFloat customer_country amount_usd
      account_age_days).risk_score =
        ((if customer_country ∈ (["NG", "IR", "RU", "KP"] : List String) then 30 else 0) +
         (if amount_usd ≥ 10000 then 25 else 0) +
         (if account_age_days ≤ 30 then 20 else 0)) ∧
    ((analyze_transaction_risk showFloat customer_country amount_usd
      account_age_days).risk_level = "High" ↔ 75 ≤ (analyze_transaction_risk showFloat customer_country amount_usd
      account_age_days).risk_score) ∧
    ((analyze_transaction_risk showFloat customer_country amount_usd
      account_age_days).risk_level = "Medium" ↔ 40 ≤ (analyze_transaction_risk showFloat customer_country amount_usd
      account_age_days).risk_score ∧ (analyze_transaction_risk showFloat customer_country amount_usd
      account_age_days).risk_score < 75) ∧
    ((analyze_transaction_risk showFloat customer_country amount_usd
      account_age_days).risk_level = "Low" ↔ (analyze_transaction_risk showFloat customer_country amount_usd
      account_age_days).risk_score < 40) ∧
    (75 ≤ (analyze_transaction_risk showFloat customer_country amount_usd
      account_age_days).risk_score ↔
      customer_country ∈ (["NG", "IR", "RU", "KP"] : List String) ∧
        amount_usd ≥ 10000 ∧ account_age_days ≤ 30) ∧
    (∃ rest, (analyze_transaction_risk showFloat customer_country amount_usd
      account_age_days).result = "Risk Score: " ++ toString (analyze_transaction_risk showFloat customer_country amount_usd
      account_age_days).risk_score ++ "/100" ++ rest) := by
  by_cases h1 : customer_country ∈ (["NG", "IR", "RU", "KP"] : List String) <;>
  by_cases h2 : amount_usd ≥ (10000 : Rat) <;>
  by_cases h3 : account_age_days ≤ (30 : Int) <;>
  · simp only [analyze_transaction_risk, high_risk_countries, high_amount_threshold_usd,
      suspicious_account_age_days, ge_iff_le, h1, h2, h3, if_pos, if_neg, if_true, if_false,
      ite_true, ite_false, not_true, not_false_iff, List.isEmpty_cons, List.isEmpty_nil]
    refine ⟨by simp [h1, h2, h3], by decide, by decide, by decide, by simp [h1, h2, h3], ?_⟩
    repeat (first | exact ⟨"\n", rfl⟩ | apply exists_append_extend)

/-! ## Claim C7 -/

/-- C7: `create_fraud_alert` never raises (it is a total function here); the
enumerations are validated in the order severity, status, decision action,
each failure returning the corresponding "Invalid ..." message with no alert
document constructed; on valid enumerations the constructed document and the
confirmation carry the alert id "ALERT-{transaction_id}". -/
theorem c7_create_fraud_alert_validation (transaction_id customer_id : String)
    (risk_score : Int) (severity status decision_action reason : String) :
    ((create_fraud_alert transaction_id customer_id risk_score severity status
        decision_action reason).2 = none ↔
      severity ∉ SEVERITY_LEVELS ∨ status ∉ STATUS_VALUES ∨
        decision_action ∉ DECISION_ACTIONS) ∧
    (severity ∉ SEVERITY_LEVELS →
      (create_fraud_alert transaction_id customer_id risk_score severity status
        decision_action reason) = ("Invalid severity: " ++ severity ++ ". Must be one of " ++
        pyListRepr SEVERITY_LEVELS, none)) ∧
    (severity ∈ SEVERITY_LEVELS → status ∉ STATUS_VALUES →
      (create_fraud_alert transaction_id customer_id risk_score severity status
        decision_action reason) = ("Invalid status: " ++ status ++ ". Must be one of " ++
        pyListRepr STATUS_VALUES, none)) ∧
    (severity ∈ SEVERITY_LEVELS → status ∈ STATUS_VALUES →
        decision_action ∉ DECISION_ACTIONS →
      (create_fraud_alert transaction_id customer_id risk_score severity status
        decision_action reason) = ("Invalid decision_action: " ++ decision_action ++ ". Must be one of " ++
        pyListRepr DECISION_ACTIONS, none)) ∧
    (severity ∈ SEVERITY_LEVELS → status ∈ STATUS_VALUES →
        decision_action ∈ DECISION_ACTIONS →
      (create_fraud_alert transaction_id customer_id risk_score severity status
        decision_action reason) = ("✅ Fraud Alert Created:\n" ++
          "Alert ID: " ++ ("ALERT-" ++ transaction_id) ++ "\n" ++
          "Transaction: " ++ transaction_id ++ "\n" ++
          "Customer: " ++ customer_id ++ "\n" ++
          "Risk Score: " ++ toString risk_score ++ "/100\n" ++
          "Severity: " ++ severity ++ "\n" ++
          "Status: " ++ status ++ "\n" ++
          "Decision: " ++ decision_action ++ "\n" ++
          "Reason: " ++ reason ++ "\n",
        some { id := "ALERT-" ++ transaction_id
               transaction_id := transaction_id
               customer_id := customer_id
               risk_score := risk_score
               severity := severity
               status := status
               decision_action := decision_action
               reason := reason
               created_at := "2024-01-01T00:00:00" })) := by
  by_cases h1 : severity ∈ SEVERITY_LEVELS <;>
  by_cases h2 : status ∈ STATUS_VALUES <;>
  by_cases h3 : decision_action ∈ DECISION_ACTIONS <;>
  · refine ⟨?_, ?_, ?_, ?_, ?_⟩ <;> simp [create_fraud_alert, h1, h2, h3]

/-- Witness for C7 at a concrete valid input. -/
theorem c7_create_fraud_alert_validation_witness :
    (create_fraud_alert "TXN001" "CUST1001" 85 "HIGH" "OPEN" "BLOCK" "sanctions").2 =
      some { id := "ALERT-TXN001"
             transaction_id := "TXN001"
             customer_id := "CUST1001"
             risk_score := 85
             severity := "HIGH"
             status := "OPEN"
             decision_action := "BLOCK"
             reason := "sanctions"
             created_at := "2024-01-01T00:00:00" } := by
  have h := (c7_create_fraud_alert_validation "TXN001" "CUST1001" 85 "HIGH" "OPEN" "BLOCK"
    "sanctions").2.2.2.2 (by decide) (by decide) (by decide)
  rw [h]
  rfl

/-! ## Claim C1 -/

/-- Loop of the risk-score parse as a first-match search over the pattern list. -/
theorem tryPatterns_eq_findSome (ps : List (List Char → Option Nat)) (s : List Char) :
    tryPatterns ps s = ps.findSome? (fun p =>
      match searchCapture p s with
      | some v => if v ≤ 100 then some v else none
      | none => none) := by
  induction ps with
  | nil => rfl
  | cons p ps ih =>
    simp only [tryPatterns, List.findSome?_cons]
    cases h : searchCapture p s with
    | none => simpa using ih
    | some v => by_cases hv : v ≤ 100 <;> simp [hv, ih]


/-- Any score accepted by the pattern loop lies within the checked range. -/
theorem tryPatterns_le_100 (ps : List (List Char → Option Nat)) (s : List Char) (v : Nat) :
    tryPatterns ps s = some v → v ≤ 100 := by
  induction ps with
  | nil => intro h; cases h
  | cons p ps ih =>
    show (match searchCapture p s with
          | some w => if w ≤ 100 then some w else tryPatterns ps s
          | none => tryPatterns ps s) = some v → v ≤ 100
    cases h : searchCapture p s with
    | none => exact ih
    | some w =>
      dsimp only
      by_cases hw : w ≤ 100
      · rw [if_pos hw]; intro h2; cases h2; exact hw
      · rw [if_neg hw]; exact ih


/-- The extracted risk score never exceeds 100. -/
theorem parse_risk_score_le_100 (s : String) : parse_risk_score s ≤ 100 := by
  show (match tryPatterns riskPatterns (lowerStr s).data with
        | some v => v
        | none => fallbackScore (lowerStr s).data) ≤ 100
  cases h : tryPatterns riskPatterns (lowerStr s).data with
  | some v => exact tryPatterns_le_100 _ _ _ h
  | none =>
    dsimp only
    unfold fallbackScore
    split_ifs <;> norm_num


/-- C1: the risk-score extraction tries the six regex patterns in source order
on the lowercased reply and takes the first captured integer within [0,100]
(an out-of-range capture falls through to the next pattern); if none yields a
score it falls back to the keyword heuristics 85 (high/critical/severe), 55
(medium/moderate), 25 (low/minimal), and finally the default 50. -/
theorem c1_risk_score_extraction (risk_analysis : String) :
    riskPatterns = [matchPat1At, matchPat2At, matchPat3At, matchPat4At, matchPat5At,
      matchPat6At] ∧
    parse_risk_score risk_analysis =
      (match riskPatterns.findSome? (fun p =>
          match searchCapture p (lowerStr risk_analysis).data with
          | some v => if v ≤ 100 then some v else none
          | none => none) with
      | some v => v
      | none =>
        if hasKeyword ["high".data, "critical".data, "severe".data]
            (lowerStr risk_analysis).data then 85
        else if hasKeyword ["medium".data, "moderate".data]
            (lowerStr risk_analysis).data then 55
        else if hasKeyword ["low".data, "minimal".data]
            (lowerStr risk_analysis).data then 25
        else 50) ∧
    parse_risk_score risk_analysis ≤ 100 := by
  refine ⟨rfl, ?_, parse_risk_score_le_100 _⟩
  show (match tryPatterns riskPatterns (lowerStr risk_analysis).data with
        | some v => v
        | none => fallbackScore (lowerStr risk_analysis).data) = _
  rw [tryPatterns_eq_findSome]
  cases hFS : List.findSome? (fun p =>
      match searchCapture p (lowerStr risk_analysis).data with
      | some v => if v ≤ 100 then some v else none
      | none => none) riskPatterns with
  | some v => rfl
  | none => rfl

/-! ## Claim C8 -/

/-- Bounds of `abs (x - 50) / 50` for `x` in `[0, 100]`. -/
theorem confidence_bounds {x : Rat} (h0 : 0 ≤ x) (h1 : x ≤ 100) :
    0 ≤ |x - 50| / 50 ∧ |x - 50| / 50 ≤ 1 := by
  constructor
  · positivity
  · rw [div_le_one (by norm_num), abs_le]
    constructor <;> linarith


/-- C8: every successful RiskAnalyser response has a risk score in [0,100],
level HIGH/MEDIUM/LOW exactly on [75,100], [40,75) and [0,40), the
recommendation BLOCK/INVESTIGATE/ALLOW determined by the level, and a model
confidence equal to abs(risk_score - 50)/50, which lies in [0,1]. -/
theorem c8_risk_response_invariant (customer_response : CustomerDataResponse) (msgs : List String) :
    let r := (riskHandle customer_response (Except.ok msgs)).resp
    0 ≤ r.risk_score ∧ r.risk_score ≤ 100 ∧
    (r.risk_level = "HIGH" ↔ 75 ≤ r.risk_score) ∧
    (r.risk_level = "MEDIUM" ↔ 40 ≤ r.risk_score ∧ r.risk_score < 75) ∧
    (r.risk_level = "LOW" ↔ r.risk_score < 40) ∧
    (r.recommendation = "BLOCK" ↔ r.risk_level = "HIGH") ∧
    (r.recommendation = "INVESTIGATE" ↔ r.risk_level = "MEDIUM") ∧
    (r.recommendation = "ALLOW" ↔ r.risk_level = "LOW") ∧
    r.model_confidence = some (|(r.risk_score : Rat) - 50| / 50) ∧
    0 ≤ |(r.risk_score : Rat) - 50| / 50 ∧ |(r.risk_score : Rat) - 50| / 50 ≤ 1 := by
  have h100 : parse_risk_score (lastText msgs) ≤ 100 := parse_risk_score_le_100 _
  have h0i : (0 : Int) ≤ (parse_risk_score (lastText msgs) : Int) := Int.ofNat_nonneg _
  have h100i : (parse_risk_score (lastText msgs) : Int) ≤ 100 := by exact_mod_cast h100
  have h0r : (0 : Rat) ≤ ((parse_risk_score (lastText msgs) : Int) : Rat) := by
    exact_mod_cast h0i
  have h100r : ((parse_risk_score (lastText msgs) : Int) : Rat) ≤ 100 := by
    exact_mod_cast h100i
  have hconf := confidence_bounds h0r h100r
  dsimp only
  unfold riskHandle
  dsimp only
  simp only [ge_iff_le]
  by_cases hb1 : (75 : Int) ≤ (parse_risk_score (lastText msgs) : Int) <;>
  by_cases hb2 : (40 : Int) ≤ (parse_risk_score (lastText msgs) : Int) <;>
  · simp only [hb1, hb2, if_true, if_false, ite_true, ite_false, if_pos, if_neg,
      not_true, not_false_iff]
    refine ⟨h0i, h100i, ?_, ?_, ?_, ?_, ?_, ?_, ?_, hconf.1, hconf.2⟩ <;>
      simp_all <;> omega

/-! ## Claim C4 -/

/-- C4: in a successful FraudAlert stage run, an alert is created exactly when
the lowercased reply contains "alert created" or the incoming risk score is at
least 40, and the severity attached to a created alert is CRITICAL on
[90,inf), HIGH on [75,90), MEDIUM on [50,75) and LOW below 50. -/
theorem c4_alert_creation_and_severity (risk_response : RiskAnalysisResponse) (msgs : List String) :
    let out := fraudAlertHandle risk_response (Except.ok msgs)
    (out.resp.alert_created = true ↔
      containsSub "alert created".data (lowerStr (lastText msgs)).data = true ∨
        40 ≤ risk_response.risk_score) ∧
    (alertSeverity risk_response.risk_score = "CRITICAL" ↔ 90 ≤ risk_response.risk_score) ∧
    (alertSeverity risk_response.risk_score = "HIGH" ↔
      75 ≤ risk_response.risk_score ∧ risk_response.risk_score < 90) ∧
    (alertSeverity risk_response.risk_score = "MEDIUM" ↔
      50 ≤ risk_response.risk_score ∧ risk_response.risk_score < 75) ∧
    (alertSeverity risk_response.risk_score = "LOW" ↔ risk_response.risk_score < 50) ∧
    (out.resp.alert_created = true →
      TelemetryEvent.fraudAlertCreated ("ALERT-" ++ risk_response.transaction_id)
        (alertSeverity risk_response.risk_score) risk_response.recommendation
        risk_response.transaction_id ∈ out.events) := by
  dsimp only
  unfold fraudAlertHandle
  dsimp only
  refine ⟨?_, ?_, ?_, ?_, ?_, ?_⟩
  · simp [ge_iff_le]
  · unfold alertSeverity; split_ifs <;> simp_all <;> omega
  · unfold alertSeverity; split_ifs <;> simp_all <;> omega
  · unfold alertSeverity; split_ifs <;> simp_all <;> omega
  · unfold alertSeverity; split_ifs <;> simp_all <;> omega
  · intro hc
    simp only [hc, if_true, ite_true]
    simp [List.mem_append]

/-- Witness for C4: a created alert for a concrete score-85 response carries
severity HIGH. -/
theorem c4_alert_creation_and_severity_witness :
    TelemetryEvent.fraudAlertCreated "ALERT-TX1001" (alertSeverity 85) "BLOCK" "TX1001" ∈
      (fraudAlertHandle
        { transaction_id := "TX1001", customer_id := "CUST1001", risk_analysis := "r",
          risk_score := 85, risk_level := "HIGH", recommendation := "BLOCK",
          status := "SUCCESS" } (Except.ok ["reply"])).events := by
  have h := (c4_alert_creation_and_severity
    { transaction_id := "TX1001", customer_id := "CUST1001", risk_analysis := "r",
      risk_score := 85, risk_level := "HIGH", recommendation := "BLOCK",
      status := "SUCCESS" } ["reply"]).2.2.2.2.2 (by decide)
  simpa using h

/-! ## Claim C6 -/

/-- C6: in successful stage runs, a customer-friction event is recorded exactly
when the recommendation is BLOCK or INVESTIGATE, with transaction_declined true
exactly for BLOCK; a fraud-prevented metric exactly when an alert was created,
the recommendation is BLOCK and the amount is present and non-zero; and a
SAR-filed event exactly when an alert was created and the severity is CRITICAL
or HIGH or the amount (0 when absent) is at least 10000. -/
theorem c6_business_metric_conditions (customer_response : CustomerDataResponse) (msgs1 : List String)
    (risk_response : RiskAnalysisResponse) (msgs2 : List String) :
    let rOut := riskHandle customer_response (Except.ok msgs1)
    let aOut := fraudAlertHandle risk_response (Except.ok msgs2)
    ((∃ ft d, TelemetryEvent.customerFriction customer_response.customer_id
        customer_response.transaction_id ft d ∈ rOut.events) ↔
      rOut.resp.recommendation = "BLOCK" ∨ rOut.resp.recommendation = "INVESTIGATE") ∧
    ((∃ ft, TelemetryEvent.customerFriction customer_response.customer_id
        customer_response.transaction_id ft true ∈ rOut.events) ↔
      rOut.resp.recommendation = "BLOCK") ∧
    ((∃ ft, TelemetryEvent.customerFriction customer_response.customer_id
        customer_response.transaction_id ft false ∈ rOut.events) ↔
      rOut.resp.recommendation = "INVESTIGATE") ∧
    ((∃ amt cur ft rs, TelemetryEvent.fraudPrevented risk_response.transaction_id
        amt cur ft rs ∈ aOut.events) ↔
      aOut.resp.alert_created = true ∧ risk_response.recommendation = "BLOCK" ∧
        truthyAmount risk_response.amount = true) ∧
    ((∃ b cid, TelemetryEvent.sarFiled risk_response.transaction_id b cid ∈ aOut.events) ↔
      aOut.resp.alert_created = true ∧
        (alertSeverity risk_response.risk_score = "CRITICAL" ∨
         alertSeverity risk_response.risk_score = "HIGH" ∨
         amountOrZero risk_response.amount ≥ 10000)) := by
  dsimp only
  refine ⟨?_, ?_, ?_, ?_, ?_⟩ <;>
  · first
      | (unfold riskHandle; dsimp only; split_ifs <;> simp_all)
      | (unfold fraudAlertHandle; dsimp only; split_ifs <;> simp_all)

/-! ## Claim C2 -/

set_option maxHeartbeats 1600000 in
/-- Computation of the modelled engine on the registered chain: the run
produces exactly the one output obtained by composing the three handlers. -/
theorem runFraud_eq_composition (o : FraudOracles) (transaction_id customer_id : String)
    (amount : Option Rat) (currency : Option String) :
    runInbox o fraudEdges 4
        [(fraudStart,
          WMsg.mreq (AnalysisRequest.mk transaction_id customer_id amount currency))] =
      [(fraudAlertHandle
        (riskHandle
          (customerDataHandle
            (AnalysisRequest.mk transaction_id customer_id amount currency)
            o.customerAgent).resp
          o.riskAgent).resp o.alertAgent).resp] := rfl

/-- C2: the fraud-detection workflow registers exactly the three executors with
the two edges CustomerDataAgent→RiskAnalyserAgent→FraudAlertAgent and start
executor CustomerDataAgent, and for every request and agent outcome the run
yields exactly one output, the sequential composition of the three stage
handlers, with no branching. -/
theorem c2_workflow_sequential_chain (o : FraudOracles) (transaction_id customer_id : String)
    (amount : Option Rat) (currency : Option String) :
    fraudExecutors = ["CustomerDataAgent", "RiskAnalyserAgent", "FraudAlertAgent"] ∧
    fraudEdges = [("CustomerDataAgent", "RiskAnalyserAgent"),
      ("RiskAnalyserAgent", "FraudAlertAgent")] ∧
    fraudStart = "CustomerDataAgent" ∧
    runInbox o fraudEdges 4
        [(fraudStart,
          WMsg.mreq (AnalysisRequest.mk transaction_id customer_id amount currency))] =
      [(fraudAlertHandle
        (riskHandle
          (customerDataHandle
            (AnalysisRequest.mk transaction_id customer_id amount currency)
            o.customerAgent).resp
          o.riskAgent).resp o.alertAgent).resp] ∧
    run_fraud_detection_workflow o transaction_id customer_id amount currency =
      some (fraudAlertHandle
        (riskHandle
          (customerDataHandle
            (AnalysisRequest.mk transaction_id customer_id amount currency)
            o.customerAgent).resp
          o.riskAgent).resp o.alertAgent).resp := by
  refine ⟨rfl, rfl, rfl, runFraud_eq_composition o transaction_id customer_id amount currency, ?_⟩
  unfold run_fraud_detection_workflow
  rw [runFraud_eq_composition o transaction_id customer_id amount currency]
  rfl

/-! ## Claim C3 -/

/-- C3: each stage consults its agent outcome exactly once (the handlers take a
single outcome and have no retry path); when the stage body raises, the stage
catches and reports: CustomerData sends status ERROR with analysis
"Error: {message}", RiskAnalyser sends status ERROR with risk score 0, level
UNKNOWN and recommendation INVESTIGATE, FraudAlert yields workflow status
ERROR with no alert created; and an error response of an earlier stage still
flows through the rest of the chain to a final output. -/
theorem c3_stage_error_handling (e1 e2 e3 : String) (request : AnalysisRequest)
    (customer_response : CustomerDataResponse) (risk_response : RiskAnalysisResponse)
    (o2 o3 : AgentReply) (transaction_id customer_id : String)
    (amount : Option Rat) (currency : Option String) :
    (customerDataHandle request (Except.error e1)).resp =
      { customer_id := request.customer_id
        transaction_id := request.transaction_id
        analysis := "Error: " ++ e1
        status := "ERROR"
        amount := none
        currency := some "USD" } ∧
    (riskHandle customer_response (Except.error e2)).resp =
      { transaction_id := customer_response.transaction_id
        customer_id := customer_response.customer_id
        risk_analysis := "Error: " ++ e2
        risk_score := 0
        risk_level := "UNKNOWN"
        recommendation := "INVESTIGATE"
        status := "ERROR"
        amount := none
        currency := some "USD"
        model_confidence := none } ∧
    (fraudAlertHandle risk_response (Except.error e3)).resp =
      { transaction_id := risk_response.transaction_id
        customer_id := risk_response.customer_id
        alert_response := "Error: " ++ e3
        alert_created := false
        workflow_status := "ERROR"
        risk_score := risk_response.risk_score
        risk_level := risk_response.risk_level } ∧
    run_fraud_detection_workflow
        { customerAgent := Except.error e1, riskAgent := o2, alertAgent := o3 }
        transaction_id customer_id amount currency =
      some (fraudAlertHandle (riskHandle (customerDataHandle
        (AnalysisRequest.mk transaction_id customer_id amount currency)
        (Except.error e1)).resp o2).resp o3).resp := by
  refine ⟨rfl, rfl, rfl, ?_⟩
  unfold run_fraud_detection_workflow
  rw [runFraud_eq_composition]
  rfl

/-! ## Claim C9 -/

/-- Digit characters of distinct decimal digits are distinct. -/
theorem digitChar_inj_lt : ∀ d1, d1 < 10 → ∀ d2, d2 < 10 →
    Nat.digitChar d1 = Nat.digitChar d2 → d1 = d2 := by decide

/-- Rendering digit lists as characters is injective for decimal digits. -/
theorem mapDigitChar_inj : ∀ {l1 l2 : List Nat}, (∀ d ∈ l1, d < 10) → (∀ d ∈ l2, d < 10) →
    l1.map Nat.digitChar = l2.map Nat.digitChar → l1 = l2 := by
  intro l1
  induction l1 with
  | nil =>
    intro l2 _ _ h
    cases l2 with
    | nil => rfl
    | cons d2 t2 => simp at h
  | cons d t ih =>
    intro l2 h1 h2 h
    cases l2 with
    | nil => simp at h
    | cons d2 t2 =>
      simp only [List.map_cons, List.cons.injEq] at h
      have hdd : d = d2 :=
        digitChar_inj_lt d (h1 d (by simp)) d2 (h2 d2 (by simp)) h.1
      have htt : t = t2 :=
        ih (fun x hx => h1 x (by simp [hx])) (fun x hx => h2 x (by simp [hx])) h.2
      rw [hdd, htt]

/-- Decimal rendering is injective on positive numbers. -/
theorem natDec_inj_pos {a b : Nat} (ha : a ≠ 0) (hb : b ≠ 0) (h : natDec a = natDec b) :
    a = b := by
  unfold natDec at h
  rw [if_neg ha, if_neg hb] at h
  have hd : ((Nat.digits 10 a).map Nat.digitChar).reverse =
      ((Nat.digits 10 b).map Nat.digitChar).reverse := congrArg String.data h
  have hd2 : (Nat.digits 10 a).map Nat.digitChar = (Nat.digits 10 b).map Nat.digitChar :=
    List.reverse_injective hd
  have hdig : Nat.digits 10 a = Nat.digits 10 b :=
    mapDigitChar_inj (fun d hd3 => Nat.digits_lt_base (by norm_num) hd3)
      (fun d hd3 => Nat.digits_lt_base (by norm_num) hd3) hd2
  calc a = Nat.ofDigits 10 (Nat.digits 10 a) := (Nat.ofDigits_digits 10 a).symm
    _ = Nat.ofDigits 10 (Nat.digits 10 b) := by rw [hdig]
    _ = b := Nat.ofDigits_digits 10 b

/-- Suffix appended to a wrapped transaction id: empty on the first pass over
the seed list, "-{k}" on batch copy number k. -/
def idSuffix (k : Nat) : String := if k = 0 then "" else "-" ++ natDec k

/-- The id suffix determines the copy number. -/
theorem idSuffix_inj {a b : Nat} (h : idSuffix a = idSuffix b) : a = b := by
  unfold idSuffix at h
  by_cases ha : a = 0 <;> by_cases hb : b = 0
  · rw [ha, hb]
  · rw [if_pos ha, if_neg hb] at h
    have := congrArg String.data h
    simp [String.data_append] at this
  · rw [if_neg ha, if_pos hb] at h
    have := congrArg String.data h
    simp [String.data_append] at this
  · rw [if_neg ha, if_neg hb] at h
    have hd := congrArg String.data h
    simp only [String.data_append] at hd
    have : (natDec a).data = (natDec b).data := by
      have hcons := hd
      simp at hcons
      exact hcons
    exact natDec_inj_pos ha hb (String.ext this)

/-- Transaction id of the i-th prepared transaction, in base-plus-suffix form. -/
theorem prepTransaction_id (i : Nat) :
    (prepTransaction i).transaction_id =
      (AVAILABLE_TRANSACTIONS.getD (i % 17) dummyTransaction).transaction_id ++
        idSuffix (i / 17) := by
  have hlen : AVAILABLE_TRANSACTIONS.length = 17 := rfl
  unfold prepTransaction idSuffix
  rw [hlen]
  by_cases h : 17 ≤ i
  · rw [if_pos h]
    have hnz : i / 17 ≠ 0 := by
      have := (Nat.one_le_div_iff (by norm_num : 0 < 17)).mpr h
      omega
    rw [if_neg hnz]
    rw [String.append_assoc]
  · rw [if_neg h]
    have hz : i / 17 = 0 := Nat.div_eq_of_lt (by omega)
    rw [hz, if_pos rfl]
    have : ∀ s : String, s ++ "" = s := by
      intro s
      apply String.ext
      simp [String.data_append]
    rw [this]

/-- Every seed transaction id is 6 characters long. -/
theorem baseTid_data_len : ∀ k, k < 17 →
    ((AVAILABLE_TRANSACTIONS.getD k dummyTransaction).transaction_id).data.length = 6 := by
  decide

/-- The 17 seed transaction ids are pairwise distinct. -/
theorem baseTid_inj : ∀ k1, k1 < 17 → ∀ k2, k2 < 17 →
    (AVAILABLE_TRANSACTIONS.getD k1 dummyTransaction).transaction_id =
      (AVAILABLE_TRANSACTIONS.getD k2 dummyTransaction).transaction_id → k1 = k2 := by
  decide

/-- Prepared transaction ids determine the batch index. -/
theorem prepId_inj {i j : Nat}
    (h : (prepTransaction i).transaction_id = (prepTransaction j).transaction_id) :
    i = j := by
  rw [prepTransaction_id, prepTransaction_id] at h
  have hd := congrArg String.data h
  simp only [String.data_append] at hd
  have hmi : i % 17 < 17 := Nat.mod_lt _ (by norm_num)
  have hmj : j % 17 < 17 := Nat.mod_lt _ (by norm_num)
  have hsplit := List.append_inj hd (by rw [baseTid_data_len _ hmi, baseTid_data_len _ hmj])
  have hbase : i % 17 = j % 17 := by
    apply baseTid_inj _ hmi _ hmj
    exact String.ext hsplit.1
  have hsuf : i / 17 = j / 17 := by
    apply idSuffix_inj
    exact String.ext hsplit.2
  have hi := Nat.div_add_mod i 17
  have hj := Nat.div_add_mod j 17
  omega

/-- Record form of the i-th prepared transaction. -/
theorem prepTransaction_eq (i : Nat) :
    prepTransaction i =
      { AVAILABLE_TRANSACTIONS.getD (i % 17) dummyTransaction with
        transaction_id :=
          if 17 ≤ i then
            (AVAILABLE_TRANSACTIONS.getD (i % 17) dummyTransaction).transaction_id ++
              "-" ++ natDec (i / 17)
          else
            (AVAILABLE_TRANSACTIONS.getD (i % 17) dummyTransaction).transaction_id } := by
  have hlen : AVAILABLE_TRANSACTIONS.length = 17 := rfl
  unfold prepTransaction
  rw [hlen]
  dsimp only
  simp only [ge_iff_le]
  by_cases hc : 17 ≤ i
  · simp only [if_pos hc]
  · simp only [if_neg hc]

/-- C9: for n at least 1, the prepared batch has exactly n transactions, the
i-th (0-based) being a copy of AVAILABLE_TRANSACTIONS[i mod 17] whose
transaction id gains the suffix "-{i div 17}" exactly when i is at least 17;
consequently the transaction ids are pairwise distinct.  The seed list itself
is a constant of the embedding, so the preparation cannot mutate it. -/
theorem c9_batch_preparation (n : Nat) (h : 1 ≤ n) :
    (prepTransactions n).length = n ∧
    (∀ i, i < n →
      (prepTransactions n)[i]? =
        some { AVAILABLE_TRANSACTIONS.getD (i % 17) dummyTransaction with
               transaction_id :=
                 if 17 ≤ i then
                   (AVAILABLE_TRANSACTIONS.getD (i % 17) dummyTransaction).transaction_id ++
                     "-" ++ natDec (i / 17)
                 else
                   (AVAILABLE_TRANSACTIONS.getD (i % 17) dummyTransaction).transaction_id }) ∧
    (prepTransactions n).Pairwise (fun a b => a.transaction_id ≠ b.transaction_id) := by
  refine ⟨by simp [prepTransactions], ?_, ?_⟩
  · intro i hi
    unfold prepTransactions
    rw [List.getElem?_map, List.getElem?_range hi]
    show some (prepTransaction i) = _
    rw [prepTransaction_eq]
  · unfold prepTransactions
    rw [List.pairwise_map]
    apply List.Pairwise.imp ?_ (List.pairwise_lt_range n)
    intro a b hab heq
    exact absurd (prepId_inj heq) (Nat.ne_of_lt hab)

/-- Witness for C9 at a batch of 20 transactions (which wraps past the seed
list). -/
theorem c9_batch_preparation_witness :
    (prepTransactions 20).length = 20 ∧
    (prepTransactions 20).Pairwise (fun a b => a.transaction_id ≠ b.transaction_id) :=
  ⟨(c9_batch_preparation 20 (by norm_num)).1, (c9_batch_preparation 20 (by norm_num)).2.2⟩

/-! ## Claim C10 -/

/-- Field-by-field effect of one loop iteration on the summary counters. -/
theorem recordResult_fields (s : BatchRunSummary) (r : TransactionResult) :
    (recordResult s r).total_transactions = s.total_transactions ∧
    (recordResult s r).avg_processing_time = s.avg_processing_time ∧
    (recordResult s r).avg_risk_score = s.avg_risk_score ∧
    (recordResult s r).results = s.results ++ [r] ∧
    (recordResult s r).successful = s.successful + (if r.status = "SUCCESS" then 1 else 0) ∧
    (recordResult s r).failed = s.failed + (if r.status = "SUCCESS" then 0 else 1) ∧
    (recordResult s r).alerts_created =
      s.alerts_created + (if r.alert_created then 1 else 0) ∧
    (recordResult s r).total_amount_processed = s.total_amount_processed + r.amount ∧
    (recordResult s r).total_amount_blocked =
      s.total_amount_blocked + (if r.alert_created then r.amount else 0) := by
  unfold recordResult
  dsimp only
  by_cases hs : r.status = "SUCCESS" <;> by_cases ha : r.alert_created = true <;>
    simp [hs, ha]

/-- Closed form of the counter fold over a whole result list. -/
theorem foldl_recordResult_spec (rs : List TransactionResult) :
    ∀ s0 : BatchRunSummary,
    (rs.foldl recordResult s0).total_transactions = s0.total_transactions ∧
    (rs.foldl recordResult s0).avg_processing_time = s0.avg_processing_time ∧
    (rs.foldl recordResult s0).avg_risk_score = s0.avg_risk_score ∧
    (rs.foldl recordResult s0).results = s0.results ++ rs ∧
    (rs.foldl recordResult s0).successful =
      s0.successful + rs.countP (fun r => decide (r.status = "SUCCESS")) ∧
    (rs.foldl recordResult s0).failed =
      s0.failed + rs.countP (fun r => !(decide (r.status = "SUCCESS"))) ∧
    (rs.foldl recordResult s0).alerts_created =
      s0.alerts_created + rs.countP (fun r => r.alert_created) ∧
    (rs.foldl recordResult s0).total_amount_processed =
      s0.total_amount_processed + (rs.map TransactionResult.amount).sum ∧
    (rs.foldl recordResult s0).total_amount_blocked =
      s0.total_amount_blocked +
        ((rs.filter (fun r => r.alert_created)).map TransactionResult.amount).sum := by
  induction rs with
  | nil => intro s0; simp
  | cons r t ih =>
    intro s0
    obtain ⟨h1, h2, h3, h4, h5, h6, h7, h8, h9⟩ := ih (recordResult s0 r)
    obtain ⟨g1, g2, g3, g4, g5, g6, g7, g8, g9⟩ := recordResult_fields s0 r
    simp only [List.foldl_cons, List.countP_cons, List.map_cons, List.sum_cons,
      List.filter_cons]
    refine ⟨?_, ?_, ?_, ?_, ?_, ?_, ?_, ?_, ?_⟩
    · rw [h1, g1]
    · rw [h2, g2]
    · rw [h3, g3]
    · rw [h4, g4]; simp
    · rw [h5, g5]; by_cases hs : r.status = "SUCCESS" <;> simp [hs] <;> omega
    · rw [h6, g6]; by_cases hs : r.status = "SUCCESS" <;> simp [hs] <;> omega
    · rw [h7, g7]; by_cases ha : r.alert_created = true <;> simp [ha] <;> omega
    · rw [h8, g8]; ring
    · rw [h9, g9]; by_cases ha : r.alert_created = true <;> simp [ha] <;> ring

/-- The average computation changes no counter, and on a run with at least one
success it sets both averages over the successful results only. -/
theorem finalizeAverages_fields (s : BatchRunSummary) :
    (finalizeAverages s).total_transactions = s.total_transactions ∧
    (finalizeAverages s).successful = s.successful ∧
    (finalizeAverages s).failed = s.failed ∧
    (finalizeAverages s).alerts_created = s.alerts_created ∧
    (finalizeAverages s).total_amount_processed = s.total_amount_processed ∧
    (finalizeAverages s).total_amount_blocked = s.total_amount_blocked ∧
    (finalizeAverages s).results = s.results ∧
    (0 < s.successful →
      (finalizeAverages s).avg_processing_time =
        ((s.results.filter (fun r => r.status = "SUCCESS")).map
          TransactionResult.processing_time).sum /
          (((s.results.filter (fun r => r.status = "SUCCESS")).length : Nat) : Rat) ∧
      (finalizeAverages s).avg_risk_score =
        ((s.results.filter (fun r => r.status = "SUCCESS")).map
          (fun r => (r.risk_score : Rat))).sum /
          (((s.results.filter (fun r => r.status = "SUCCESS")).length : Nat) : Rat)) := by
  unfold finalizeAverages
  by_cases h : 0 < s.successful <;> simp [h]

/-- C10: the batch summary counts every result in exactly one of successful
(status SUCCESS) and failed (any other status), with successful + failed = n;
alerts_created counts the alert-created results; total_amount_processed is the
sum of all result amounts and total_amount_blocked the sum over alert-created
results, hence blocked is at most processed when every amount is non-negative;
and both averages are taken over the successful results only. -/
theorem c10_batch_summary_invariants (n : Nat) (rs : List TransactionResult) (hlen : rs.length = n) :
    let s := run_batch_summary n rs
    s.total_transactions = n ∧
    s.results = rs ∧
    s.successful = rs.countP (fun r => decide (r.status = "SUCCESS")) ∧
    s.failed = rs.countP (fun r => !(decide (r.status = "SUCCESS"))) ∧
    s.successful + s.failed = n ∧
    s.alerts_created = rs.countP (fun r => r.alert_created) ∧
    s.total_amount_processed = (rs.map TransactionResult.amount).sum ∧
    s.total_amount_blocked =
      ((rs.filter (fun r => r.alert_created)).map TransactionResult.amount).sum ∧
    ((∀ r ∈ rs, 0 ≤ r.amount) → s.total_amount_blocked ≤ s.total_amount_processed) ∧
    (0 < s.successful →
      s.avg_processing_time =
        ((rs.filter (fun r => r.status = "SUCCESS")).map
          TransactionResult.processing_time).sum /
          (((rs.filter (fun r => r.status = "SUCCESS")).length : Nat) : Rat) ∧
      s.avg_risk_score =
        ((rs.filter (fun r => r.status = "SUCCESS")).map (fun r => (r.risk_score : Rat))).sum /
          (((rs.filter (fun r => r.status = "SUCCESS")).length : Nat) : Rat)) := by
  dsimp only
  unfold run_batch_summary
  obtain ⟨f1, f2, f3, f4, f5, f6, f7, f8⟩ :=
    finalizeAverages_fields (rs.foldl recordResult { total_transactions := n })
  obtain ⟨h1, h2, h3, h4, h5, h6, h7, h8, h9⟩ :=
    foldl_recordResult_spec rs { total_transactions := n }
  simp only [List.nil_append] at h4
  refine ⟨?_, ?_, ?_, ?_, ?_, ?_, ?_, ?_, ?_, ?_⟩
  · rw [f1, h1]
  · rw [f7, h4]
  · rw [f2, h5]; simp
  · rw [f3, h6]; simp
  · rw [f2, f3, h5, h6]
    simp only [Nat.zero_add]
    rw [← hlen]
    have hsplit := List.length_eq_countP_add_countP (fun r => decide (r.status = "SUCCESS")) rs
    simpa [decide_not, Bool.decide_eq_true] using hsplit.symm
  · rw [f4, h7]; simp
  · rw [f5, h8]; simp
  · rw [f6, h9]; simp
  · intro hpos
    rw [f5, f6, h8, h9]
    simp only [Rat.zero_add, zero_add]
    apply List.Sublist.sum_le_sum
    · exact List.Sublist.map _ (List.filter_sublist rs)
    · intro a ha
      obtain ⟨r, hr, hra⟩ := List.mem_map.mp ha
      exact hra ▸ hpos r hr
  · intro hpos
    rw [f2, h5] at hpos
    simp only [Nat.zero_add] at hpos
    have := f8 (by rw [h5]; simpa using hpos)
    rw [h4] at this
    exact this

/-- Witness for C10 on a concrete two-result batch. -/
theorem c10_batch_summary_invariants_witness :
    (run_batch_summary 2
        [{ transaction_id := "TX1001", customer_id := "CUST1001", amount := 5200,
           currency := "USD", risk_score := 85, risk_level := "HIGH",
           alert_created := true, alert_severity := "HIGH", processing_time := 2,
           status := "SUCCESS" },
         { transaction_id := "TX1002", customer_id := "CUST1002", amount := 15000,
           currency := "INR", status := "ERROR" }]).successful +
      (run_batch_summary 2
        [{ transaction_id := "TX1001", customer_id := "CUST1001", amount := 5200,
           currency := "USD", risk_score := 85, risk_level := "HIGH",
           alert_created := true, alert_severity := "HIGH", processing_time := 2,
           status := "SUCCESS" },
         { transaction_id := "TX1002", customer_id := "CUST1002", amount := 15000,
           currency := "INR", status := "ERROR" }]).failed = 2 :=
  (c10_batch_summary_invariants 2
    [{ transaction_id := "TX1001", customer_id := "CUST1001", amount := 5200,
       currency := "USD", risk_score := 85, risk_level := "HIGH",
       alert_created := true, alert_severity := "HIGH", processing_time := 2,
       status := "SUCCESS" },
     { transaction_id := "TX1002", customer_id := "CUST1002", amount := 15000,
       currency := "INR", status := "ERROR" }] rfl).2.2.2.2.1
